import Mathlib

/-!
Shallow embedding of the llm-profiler repository: the operation catalog
(src/operations.py, duplicated in src/llama_train.py), the model graph and
aggregator (src/model.py), and the standalone op-list builder
(src/llama_train.py, create_llama_ops).  Python float arithmetic on these
integer-derived quantities is modelled exactly over the rationals; Python
real division (h / n_h, n_h / n_kv) is rational division, and Python int()
truncation toward zero is the function pyInt below.
-/

namespace LLMProfiler

/-- Runtime class of an operation instance; Python isinstance checks against
the Linear class are modelled as a match on this discriminant. -/
inductive OpKind where
  | linear
  | embedding
  | rmsnorm
  | softmax
  | matmul
  | silu
  | residual
  | scale
  | rotaryEmb
  | repeatKV
  | elementwise
deriving DecidableEq

/-- Cost record: operations.py class Operation carries fwd_flops and
bwd_flops, set by each subclass constructor; kind records the subclass. -/
structure Operation where
  kind : OpKind
  fwd_flops : ℚ
  bwd_flops : ℚ
deriving DecidableEq

/-- Derived property total_flops = fwd_flops + bwd_flops (operations.py). -/
def Operation.total_flops (op : Operation) : ℚ :=
  op.fwd_flops + op.bwd_flops

/-- Linear(input, out_dim): fwd = 2 * prod(input) * out_dim,
bwd = 2 * fwd (operations.py lines 12-19). -/
def Linear (input : List ℚ) (out_dim : ℚ) : Operation :=
  let fwd : ℚ := 2 * input.prod * out_dim
  ⟨OpKind.linear, fwd, 2 * fwd⟩

/-- Embedding(): fwd = 0, bwd = 0. -/
def Embedding : Operation :=
  ⟨OpKind.embedding, 0, 0⟩

/-- RMSNorm(input): fwd = 4 * prod(input), bwd = 9 * prod(input). -/
def RMSNorm (input : List ℚ) : Operation :=
  ⟨OpKind.rmsnorm, 4 * input.prod, 9 * input.prod⟩

/-- Softmax(input): fwd = 5 * prod(input), bwd = 4 * prod(input). -/
def Softmax (input : List ℚ) : Operation :=
  ⟨OpKind.softmax, 5 * input.prod, 4 * input.prod⟩

/-- Matmul(input1, input2): fwd = 2 * prod(input1) * input2[-1],
bwd = 2 * fwd; input2 is nonempty at every call site. -/
def Matmul (input1 input2 : List ℚ) : Operation :=
  let fwd : ℚ := 2 * input1.prod * input2.getLastD 0
  ⟨OpKind.matmul, fwd, 2 * fwd⟩

/-- Silu(input): fwd = 5 * prod(input), bwd = 9 * prod(input). -/
def Silu (input : List ℚ) : Operation :=
  ⟨OpKind.silu, 5 * input.prod, 9 * input.prod⟩

/-- Residual(input): fwd = prod(input), bwd = 0. -/
def Residual (input : List ℚ) : Operation :=
  ⟨OpKind.residual, input.prod, 0⟩

/-- Scale(input): fwd = prod(input), bwd = fwd. -/
def Scale (input : List ℚ) : Operation :=
  ⟨OpKind.scale, input.prod, input.prod⟩

/-- RotaryEmb(input): fwd = 3 * prod(input), bwd = fwd. -/
def RotaryEmb (input : List ℚ) : Operation :=
  ⟨OpKind.rotaryEmb, 3 * input.prod, 3 * input.prod⟩

/-- RepeatKV(input, n_rep): fwd = 0, bwd = prod(input) * (n_rep - 1);
model.py passes n_rep = n_h / n_kv as a real number. -/
def RepeatKV (input : List ℚ) (n_rep : ℚ) : Operation :=
  ⟨OpKind.repeatKV, 0, input.prod * (n_rep - 1)⟩

/-- Elementwise(input): fwd = prod(input), bwd = 2 * prod(input). -/
def Elementwise (input : List ℚ) : Operation :=
  ⟨OpKind.elementwise, input.prod, 2 * input.prod⟩

/-- Python int() applied to a real value: truncation toward zero. -/
def pyInt (q : ℚ) : ℤ :=
  if 0 ≤ q then ⌊q⌋ else ⌈q⌉

/-- Model state (model.py class Model): the six configuration integers fixed
at construction plus the mutable ops list, which __init__ sets to []. -/
structure Model where
  h : ℕ
  V : ℕ
  L : ℕ
  n_h : ℕ
  n_kv : ℕ
  d_ff : ℕ
  ops : List (String × Operation)
deriving DecidableEq

/-- Model(h, V, L, n_h, n_kv, d_ff): fresh instance with empty ops list. -/
def mkModel (h V L n_h n_kv d_ff : ℕ) : Model :=
  ⟨h, V, L, n_h, n_kv, d_ff, []⟩

/-- Model.clear_ops: reset the ops list to []. -/
def Model.clear_ops (m : Model) : Model :=
  { m with ops := [] }

/-- Per-layer operation list layer_ops built inside Model.compile at unscaled
values (model.py lines 27-58), with d = h / n_h and n_rep = n_h / n_kv as
real division, and the K/V projection width truncated by int(). -/
def Model.layerOps (m : Model) (b s : ℕ) : List (String × Operation) :=
  let d : ℚ := (m.h : ℚ) / (m.n_h : ℚ)
  let n_rep : ℚ := (m.n_h : ℚ) / (m.n_kv : ℚ)
  [ ("pre_attn_rmsnorm", RMSNorm [(b : ℚ), (s : ℚ), (m.h : ℚ)]),
    ("q_proj", Linear [(b : ℚ), (s : ℚ), (m.h : ℚ)] (m.h : ℚ)),
    ("k_proj", Linear [(b : ℚ), (s : ℚ), (m.h : ℚ)] (pyInt ((m.n_kv : ℚ) * d) : ℚ)),
    ("v_proj", Linear [(b : ℚ), (s : ℚ), (m.h : ℚ)] (pyInt ((m.n_kv : ℚ) * d) : ℚ)),
    ("q_rotary", RotaryEmb [(b : ℚ), (s : ℚ), (m.n_h : ℚ), d]),
    ("k_rotary", RotaryEmb [(b : ℚ), (s : ℚ), (m.n_kv : ℚ), d]),
    ("k_repeat_kv", RepeatKV [(b : ℚ), (s : ℚ), (m.n_kv : ℚ), d] n_rep),
    ("v_repeat_kv", RepeatKV [(b : ℚ), (s : ℚ), (m.n_kv : ℚ), d] n_rep),
    ("attn_scores", Matmul [(b : ℚ), (m.n_h : ℚ), (s : ℚ), d] [(b : ℚ), (m.n_h : ℚ), d, (s : ℚ)]),
    ("attn_scale", Scale [(b : ℚ), (m.n_h : ℚ), (s : ℚ), (s : ℚ)]),
    ("softmax", Softmax [(b : ℚ), (m.n_h : ℚ), (s : ℚ), (s : ℚ)]),
    ("attn_v", Matmul [(b : ℚ), (m.n_h : ℚ), (s : ℚ), (s : ℚ)] [(b : ℚ), (m.n_h : ℚ), (s : ℚ), d]),
    ("out_proj", Linear [(b : ℚ), (s : ℚ), (m.h : ℚ)] (m.h : ℚ)),
    ("post_attn_residual", Residual [(b : ℚ), (s : ℚ), (m.h : ℚ)]),
    ("pre_ffn_rmsnorm", RMSNorm [(b : ℚ), (s : ℚ), (m.h : ℚ)]),
    ("ffn_up1", Linear [(b : ℚ), (s : ℚ), (m.h : ℚ)] (m.d_ff : ℚ)),
    ("ffn_up2", Linear [(b : ℚ), (s : ℚ), (m.d_ff : ℚ)] (m.h : ℚ)),
    ("ffn_elemtwise", Elementwise [(b : ℚ), (s : ℚ), (m.d_ff : ℚ)]),
    ("ffn_act", Silu [(b : ℚ), (s : ℚ), (m.d_ff : ℚ)]),
    ("ffn_down", Linear [(b : ℚ), (s : ℚ), (m.d_ff : ℚ)] (m.h : ℚ)),
    ("post_ffn_residual", Residual [(b : ℚ), (s : ℚ), (m.h : ℚ)]) ]

/-- Scaling applied to each per-layer entry before it is appended:
op.fwd_flops *= L; op.bwd_flops *= L; label prefixed with all_layers_
(model.py lines 60-64). -/
def scaleEntry (L : ℕ) (p : String × Operation) : String × Operation :=
  ("all_layers_" ++ p.1, ⟨p.2.kind, p.2.fwd_flops * (L : ℚ), p.2.bwd_flops * (L : ℚ)⟩)

/-- Model.compile(b, s): clear the ops list, append the embedding entry, the
per-layer entries scaled by L and tagged all_layers_, then the final norm and
the lm_head projection (model.py lines 17-68). -/
def Model.compile (m : Model) (b s : ℕ) : Model :=
  let cleared := m.clear_ops
  { cleared with ops :=
      cleared.ops
        ++ [("embedding", Embedding)]
        ++ (m.layerOps b s).map (scaleEntry m.L)
        ++ [ ("final_norm", RMSNorm [(b : ℚ), (s : ℚ), (m.h : ℚ)]),
             ("lm_head", Linear [(b : ℚ), (s : ℚ), (m.h : ℚ)] (m.V : ℚ)) ] }

/-- Summary record returned by Model.get_training_flops. -/
structure FlopSummary where
  fwd_flops : ℚ
  bwd_flops : ℚ
  total_flops : ℚ
  total_linear_flops : ℚ
deriving DecidableEq

/-- Model.get_training_flops(rounds): sum fwd and bwd over all entries, sum
fwd+bwd over entries whose operation is a Linear instance, and multiply all
four totals by rounds (model.py lines 70-86). -/
def Model.get_training_flops (m : Model) (rounds : ℕ) : FlopSummary :=
  let fwd_total := (m.ops.map (fun p => p.2.fwd_flops)).sum
  let bwd_total := (m.ops.map (fun p => p.2.bwd_flops)).sum
  let total_flops := fwd_total + bwd_total
  let linear_total :=
    ((m.ops.filter (fun p => p.2.kind == OpKind.linear)).map
      (fun p => p.2.fwd_flops + p.2.bwd_flops)).sum
  ⟨fwd_total * (rounds : ℚ), bwd_total * (rounds : ℚ),
    total_flops * (rounds : ℚ), linear_total * (rounds : ℚ)⟩

/-- create_llama_ops (llama_train.py lines 121-182): same construction as
Model.compile over the duplicated catalog, except the K/V projection width
n_kv * d is passed to Linear without int() truncation. -/
def create_llama_ops (b s h V L n_h n_kv d_ff : ℕ) : List (String × Operation) :=
  let d : ℚ := (h : ℚ) / (n_h : ℚ)
  let n_rep : ℚ := (n_h : ℚ) / (n_kv : ℚ)
  let layer_ops : List (String × Operation) :=
    [ ("pre_attn_rmsnorm", RMSNorm [(b : ℚ), (s : ℚ), (h : ℚ)]),
      ("q_proj", Linear [(b : ℚ), (s : ℚ), (h : ℚ)] (h : ℚ)),
      ("k_proj", Linear [(b : ℚ), (s : ℚ), (h : ℚ)] ((n_kv : ℚ) * d)),
      ("v_proj", Linear [(b : ℚ), (s : ℚ), (h : ℚ)] ((n_kv : ℚ) * d)),
      ("q_rotary", RotaryEmb [(b : ℚ), (s : ℚ), (n_h : ℚ), d]),
      ("k_rotary", RotaryEmb [(b : ℚ), (s : ℚ), (n_kv : ℚ), d]),
      ("k_repeat_kv", RepeatKV [(b : ℚ), (s : ℚ), (n_kv : ℚ), d] n_rep),
      ("v_repeat_kv", RepeatKV [(b : ℚ), (s : ℚ), (n_kv : ℚ), d] n_rep),
      ("attn_scores", Matmul [(b : ℚ), (n_h : ℚ), (s : ℚ), d] [(b : ℚ), (n_h : ℚ), d, (s : ℚ)]),
      ("attn_scale", Scale [(b : ℚ), (n_h : ℚ), (s : ℚ), (s : ℚ)]),
      ("softmax", Softmax [(b : ℚ), (n_h : ℚ), (s : ℚ), (s : ℚ)]),
      ("attn_v", Matmul [(b : ℚ), (n_h : ℚ), (s : ℚ), (s : ℚ)] [(b : ℚ), (n_h : ℚ), (s : ℚ), d]),
      ("out_proj", Linear [(b : ℚ), (s : ℚ), (h : ℚ)] (h : ℚ)),
      ("post_attn_residual", Residual [(b : ℚ), (s : ℚ), (h : ℚ)]),
      ("pre_ffn_rmsnorm", RMSNorm [(b : ℚ), (s : ℚ), (h : ℚ)]),
      ("ffn_up1", Linear [(b : ℚ), (s : ℚ), (h : ℚ)] (d_ff : ℚ)),
      ("ffn_up2", Linear [(b : ℚ), (s : ℚ), (d_ff : ℚ)] (h : ℚ)),
      ("ffn_elemtwise", Elementwise [(b : ℚ), (s : ℚ), (d_ff : ℚ)]),
      ("ffn_act", Silu [(b : ℚ), (s : ℚ), (d_ff : ℚ)]),
      ("ffn_down", Linear [(b : ℚ), (s : ℚ), (d_ff : ℚ)] (h : ℚ)),
      ("post_ffn_residual", Residual [(b : ℚ), (s : ℚ), (h : ℚ)]) ]
  [("embedding", Embedding)]
    ++ layer_ops.map (scaleEntry L)
    ++ [ ("final_norm", RMSNorm [(b : ℚ), (s : ℚ), (h : ℚ)]),
         ("lm_head", Linear [(b : ℚ), (s : ℚ), (h : ℚ)] (V : ℚ)) ]

/-- Phase aggregation in the llama_train.py driver: fwd, bwd, fwd+bwd and
Linear-only sums over the op list, each multiplied by rounds. -/
def llamaPhaseTotals (ops : List (String × Operation)) (rounds : ℕ) : FlopSummary :=
  let fwd_total := (ops.map (fun p => p.2.fwd_flops)).sum
  let bwd_total := (ops.map (fun p => p.2.bwd_flops)).sum
  let total_flops := fwd_total + bwd_total
  let linear_flops :=
    ((ops.filter (fun p => p.2.kind == OpKind.linear)).map
      (fun p => p.2.fwd_flops + p.2.bwd_flops)).sum
  ⟨fwd_total * (rounds : ℚ), bwd_total * (rounds : ℚ),
    total_flops * (rounds : ℚ), linear_flops * (rounds : ℚ)⟩

/-- Sum of total_flops over all entries of the current ops list. -/
def Model.sumTotalFlops (m : Model) : ℚ :=
  (m.ops.map (fun p => p.2.total_flops)).sum

/-- Entry label carries the layer-aggregate tag, i.e. begins with the
all_layers_ marker that Model.compile prepends to per-layer entries. -/
def isLayerTagged (n : String) : Bool :=
  "all_layers_".data.isPrefixOf n.data

/-- Sum of fwd_flops over the layer-tagged entries of the current ops list. -/
def Model.perLayerFwdSum (m : Model) : ℚ :=
  ((m.ops.filter (fun p => isLayerTagged p.1)).map (fun p => p.2.fwd_flops)).sum

/-- Sum of bwd_flops over the layer-tagged entries of the current ops list. -/
def Model.perLayerBwdSum (m : Model) : ℚ :=
  ((m.ops.filter (fun p => isLayerTagged p.1)).map (fun p => p.2.bwd_flops)).sum

/-- Labels produced by prepending the all_layers_ marker carry the tag. -/
lemma isLayerTagged_append (n : String) :
    isLayerTagged ("all_layers_" ++ n) = true := by
  simp only [isLayerTagged, String.data_append, List.isPrefixOf_iff_prefix]
  exact List.prefix_append _ _

/-- The embedding entry label does not carry the layer tag. -/
lemma isLayerTagged_embedding : isLayerTagged "embedding" = false := by
  decide

/-- The final norm entry label does not carry the layer tag. -/
lemma isLayerTagged_final_norm : isLayerTagged "final_norm" = false := by
  decide

/-- The lm_head entry label does not carry the layer tag. -/
lemma isLayerTagged_lm_head : isLayerTagged "lm_head" = false := by
  decide

/-- Every entry produced by scaleEntry carries the layer tag, so filtering on
the tag keeps the whole scaled per-layer block. -/
lemma filter_tagged_map_scale (L : ℕ) (l : List (String × Operation)) :
    (l.map (scaleEntry L)).filter (fun p => isLayerTagged p.1) = l.map (scaleEntry L) := by
  induction l with
  | nil => rfl
  | cons a t ih => simp [scaleEntry, List.filter_cons, isLayerTagged_append, ih]

/-- The layer-tagged entries of a compiled graph are exactly the unscaled
per-layer operations, each passed once through scaleEntry. -/
lemma compile_filter_tagged (m : Model) (b s : ℕ) :
    ((m.compile b s).ops.filter (fun p => isLayerTagged p.1))
      = (m.layerOps b s).map (scaleEntry m.L) := by
  simp [Model.compile, Model.clear_ops, List.filter_append, List.filter_cons,
    filter_tagged_map_scale, isLayerTagged_embedding, isLayerTagged_final_norm,
    isLayerTagged_lm_head]

/-- Aggregation in model.py and the phase aggregation loop in llama_train.py
perform the identical sums over the ops list. -/
lemma get_training_flops_eq_phase (m : Model) (r : ℕ) :
    m.get_training_flops r = llamaPhaseTotals m.ops r :=
  rfl

/-- Python int() acts as the identity on natural numbers. -/
lemma pyInt_natCast (n : ℕ) : pyInt ((n : ℕ) : ℚ) = (n : ℤ) := by
  simp [pyInt]

/-- Casting a product of naturals into the rationals distributes over the
list. -/
lemma natCast_list_prod (l : List ℕ) :
    ((l.prod : ℕ) : ℚ) = (l.map (fun n => (n : ℚ))).prod := by
  induction l with
  | nil => simp
  | cons a t ih => simp [ih]

/-- Claim C1: for positive input_shape and out_dim, Linear has
forward_flops = 2 * prod(input_shape) * out_dim and backward_flops exactly
2 * forward_flops. -/
theorem linear_flops_spec (shape : List ℕ) (o : ℕ)
    (hs : ∀ x ∈ shape, 0 < x) (ho : 0 < o) :
    (Linear (shape.map (fun n => (n : ℚ))) (o : ℚ)).fwd_flops
        = 2 * ((shape.prod : ℕ) : ℚ) * (o : ℚ) ∧
      (Linear (shape.map (fun n => (n : ℚ))) (o : ℚ)).bwd_flops
        = 2 * (Linear (shape.map (fun n => (n : ℚ))) (o : ℚ)).fwd_flops := by
  refine ⟨?_, rfl⟩
  rw [natCast_list_prod]
  rfl

/-- Witness for linear_flops_spec at shape [2, 3], out_dim 4. -/
theorem linear_flops_spec_witness :
    (∀ x ∈ [2, 3], 0 < x) ∧ 0 < 4 ∧
      (Linear ([2, 3].map (fun n => (n : ℚ))) ((4 : ℕ) : ℚ)).fwd_flops
          = 2 * (([2, 3].prod : ℕ) : ℚ) * ((4 : ℕ) : ℚ) ∧
        (Linear ([2, 3].map (fun n => (n : ℚ))) ((4 : ℕ) : ℚ)).bwd_flops
          = 2 * (Linear ([2, 3].map (fun n => (n : ℚ))) ((4 : ℕ) : ℚ)).fwd_flops :=
  ⟨by decide, by decide,
    (linear_flops_spec [2, 3] 4 (by decide) (by decide)).1,
    (linear_flops_spec [2, 3] 4 (by decide) (by decide)).2⟩

/-- Claim C8: for positive input_shape, RepeatKV has forward_flops = 0 for
every repeat factor; backward_flops = 0 at n_rep = 1 and
(k - 1) * prod(input_shape) at any integer n_rep = k > 1. -/
theorem repeatkv_flops_spec (shape : List ℕ) (k : ℕ)
    (hs : ∀ x ∈ shape, 0 < x) :
    (∀ r : ℚ, (RepeatKV (shape.map (fun n => (n : ℚ))) r).fwd_flops = 0) ∧
      (RepeatKV (shape.map (fun n => (n : ℚ))) 1).bwd_flops = 0 ∧
      (1 < k →
        (RepeatKV (shape.map (fun n => (n : ℚ))) (k : ℚ)).bwd_flops
          = ((k : ℚ) - 1) * ((shape.prod : ℕ) : ℚ)) := by
  refine ⟨fun r => rfl, by simp [RepeatKV], fun hk => ?_⟩
  rw [natCast_list_prod]
  simp only [RepeatKV]
  ring

/-- Witness for repeatkv_flops_spec at shape [2, 3], n_rep 4. -/
theorem repeatkv_flops_spec_witness :
    (∀ x ∈ [2, 3], 0 < x) ∧
      ((∀ r : ℚ, (RepeatKV ([2, 3].map (fun n => (n : ℚ))) r).fwd_flops = 0) ∧
        (RepeatKV ([2, 3].map (fun n => (n : ℚ))) 1).bwd_flops = 0 ∧
        (1 < 4 →
          (RepeatKV ([2, 3].map (fun n => (n : ℚ))) ((4 : ℕ) : ℚ)).bwd_flops
            = (((4 : ℕ) : ℚ) - 1) * (([2, 3].prod : ℕ) : ℚ))) :=
  ⟨by decide, repeatkv_flops_spec [2, 3] 4 (by decide)⟩

/-- Claim C3: on any model state, get_training_flops with a positive round
count R equals R times get_training_flops with rounds = 1 in all four fields,
and the total field equals the forward field plus the backward field. -/
theorem aggregate_rounds_linear (m : Model) (R : ℕ) (hR : 0 < R) :
    (m.get_training_flops R).fwd_flops
        = (R : ℚ) * (m.get_training_flops 1).fwd_flops ∧
      (m.get_training_flops R).bwd_flops
        = (R : ℚ) * (m.get_training_flops 1).bwd_flops ∧
      (m.get_training_flops R).total_flops
        = (R : ℚ) * (m.get_training_flops 1).total_flops ∧
      (m.get_training_flops R).total_linear_flops
        = (R : ℚ) * (m.get_training_flops 1).total_linear_flops ∧
      (m.get_training_flops R).total_flops
        = (m.get_training_flops R).fwd_flops + (m.get_training_flops R).bwd_flops := by
  simp only [Model.get_training_flops]
  refine ⟨by ring, by ring, by ring, by ring, by ring⟩

/-- Witness for aggregate_rounds_linear on a compiled model with R = 2. -/
theorem aggregate_rounds_linear_witness :
    0 < 2 ∧
      (((mkModel 4 10 2 2 1 8).compile 1 1).get_training_flops 2).fwd_flops
        = ((2 : ℕ) : ℚ)
            * (((mkModel 4 10 2 2 1 8).compile 1 1).get_training_flops 1).fwd_flops :=
  ⟨by decide, (aggregate_rounds_linear ((mkModel 4 10 2 2 1 8).compile 1 1) 2 (by decide)).1⟩

/-- Claim C5, counterexample to the stated behavior: aggregation on a freshly
constructed, never-compiled model does not fail; it returns the all-zero
summary computed over the empty ops list. -/
theorem aggregate_uncompiled_counterexample :
    (mkModel 1 1 1 1 1 1).get_training_flops 1 = ⟨0, 0, 0, 0⟩ := by
  simp [mkModel, Model.get_training_flops]

/-- Claim C5, amended: calling get_training_flops before any compile call on
a fresh model returns the all-zero summary, for every configuration and round
count, instead of failing with an UncompiledGraph condition. -/
theorem aggregate_uncompiled_returns_zero (h V L n_h n_kv d_ff r : ℕ) :
    (mkModel h V L n_h n_kv d_ff).get_training_flops r = ⟨0, 0, 0, 0⟩ := by
  simp [mkModel, Model.get_training_flops]

/-- Claim C6, counterexample to the stated behavior: constructing Linear with
a zero dimension succeeds and yields zero FLOPs, constructing Linear with a
negative dimension succeeds and yields negative FLOPs, and constructing
RepeatKV with n_rep = 0 succeeds and yields a negative backward FLOP count. -/
theorem construct_invalid_counterexample :
    (Linear [(0 : ℚ)] 5).fwd_flops = 0 ∧ (Linear [(0 : ℚ)] 5).bwd_flops = 0 ∧
      (Linear [(-2 : ℚ)] 5).fwd_flops = -20 ∧
      (Linear [(-2 : ℚ)] 5).bwd_flops = -40 ∧
      (RepeatKV [(1 : ℚ)] 0).bwd_flops = -1 := by
  refine ⟨?_, ?_, ?_, ?_, ?_⟩ <;> simp [Linear, RepeatKV] <;> norm_num

/-- Claim C6, amended: the constructors perform no validation and always
succeed; a shape containing a zero dimension makes Linear silently produce
zero forward and backward FLOPs, a shape whose product is negative (as when
one dimension is negative and the rest positive) together with a positive
out_dim makes Linear silently produce negative forward and backward FLOPs,
and a non-positive repeat factor on a shape with positive product makes
RepeatKV silently produce a negative backward FLOP count. -/
theorem construct_no_validation (l₁ l₂ l₃ : List ℚ) (o₁ o₂ r : ℚ)
    (h0 : (0 : ℚ) ∈ l₁) (hneg : l₂.prod < 0) (ho₂ : 0 < o₂)
    (hr : r ≤ 0) (hp : 0 < l₃.prod) :
    ((Linear l₁ o₁).fwd_flops = 0 ∧ (Linear l₁ o₁).bwd_flops = 0) ∧
      ((Linear l₂ o₂).fwd_flops < 0 ∧ (Linear l₂ o₂).bwd_flops < 0) ∧
      (RepeatKV l₃ r).bwd_flops < 0 := by
  have hprod : l₁.prod = 0 := List.prod_eq_zero h0
  have hfneg : (Linear l₂ o₂).fwd_flops < 0 := by
    have h2 : 2 * l₂.prod < 0 := by linarith
    simpa [Linear] using mul_neg_of_neg_of_pos h2 ho₂
  refine ⟨⟨by simp [Linear, hprod], by simp [Linear, hprod]⟩, ⟨hfneg, ?_⟩, ?_⟩
  · have hb : (Linear l₂ o₂).bwd_flops = 2 * (Linear l₂ o₂).fwd_flops := rfl
    rw [hb]
    linarith
  · have hrneg : r - 1 < 0 := by linarith
    simpa [RepeatKV] using mul_neg_of_pos_of_neg hp hrneg

/-- Witness for construct_no_validation at shapes [0], [-2] and [1], out_dims
5 and 5, n_rep 0. -/
theorem construct_no_validation_witness :
    ((0 : ℚ) ∈ [(0 : ℚ)] ∧ ([(-2 : ℚ)]).prod < 0 ∧ (0 : ℚ) < 5 ∧
        (0 : ℚ) ≤ 0 ∧ (0 : ℚ) < ([(1 : ℚ)]).prod) ∧
      (((Linear [(0 : ℚ)] 5).fwd_flops = 0 ∧ (Linear [(0 : ℚ)] 5).bwd_flops = 0) ∧
        ((Linear [(-2 : ℚ)] 5).fwd_flops < 0 ∧ (Linear [(-2 : ℚ)] 5).bwd_flops < 0) ∧
        (RepeatKV [(1 : ℚ)] 0).bwd_flops < 0) :=
  ⟨⟨by decide, by norm_num, by norm_num, le_refl 0, by norm_num⟩,
    construct_no_validation [(0 : ℚ)] [(-2 : ℚ)] [(1 : ℚ)] 5 5 0
      (by decide) (by norm_num) (by norm_num) (le_refl 0) (by norm_num)⟩

/-- Claim C4: compiling twice with the same (b, s), with any earlier compile
interleaved, yields identical aggregate output, because compile discards the
previous ops list entirely and rebuilds from the configuration alone. -/
theorem recompile_stable (m : Model) (b s b' s' r : ℕ) :
    ((m.compile b' s').compile b s).get_training_flops r
        = (m.compile b s).get_training_flops r ∧
      ((m.compile b' s').compile b s).ops = (m.compile b s).ops ∧
      (m.compile b s).ops
        = ((mkModel m.h m.V m.L m.n_h m.n_kv m.d_ff).compile b s).ops :=
  ⟨rfl, rfl, rfl⟩

/-- Claim C9: the sum of total_flops over a compiled graph is a deterministic
function of the configuration, batch and sequence length; two model states
agreeing on the six configuration fields compile to the same sum. -/
theorem compile_sum_deterministic (m₁ m₂ : Model) (b s : ℕ)
    (hh : m₁.h = m₂.h) (hV : m₁.V = m₂.V) (hL : m₁.L = m₂.L)
    (hnh : m₁.n_h = m₂.n_h) (hnkv : m₁.n_kv = m₂.n_kv) (hdff : m₁.d_ff = m₂.d_ff) :
    (m₁.compile b s).sumTotalFlops = (m₂.compile b s).sumTotalFlops := by
  cases m₁
  cases m₂
  simp only at hh hV hL hnh hnkv hdff
  subst hh hV hL hnh hnkv hdff
  rfl

/-- Witness for compile_sum_deterministic: a fresh model and the same model
already compiled at a different shape share all configuration fields and
compile to the same total. -/
theorem compile_sum_deterministic_witness :
    ((mkModel 2 3 1 2 1 4).h = ((mkModel 2 3 1 2 1 4).compile 5 7).h) ∧
      ((mkModel 2 3 1 2 1 4).compile 1 1).sumTotalFlops
        = (((mkModel 2 3 1 2 1 4).compile 5 7).compile 1 1).sumTotalFlops :=
  ⟨rfl, compile_sum_deterministic (mkModel 2 3 1 2 1 4)
    ((mkModel 2 3 1 2 1 4).compile 5 7) 1 1 rfl rfl rfl rfl rfl rfl⟩

/-- Claim C2: the layer-tagged entries of a compiled graph are exactly the
unscaled per-layer operations each scaled once by L with the all_layers_
label marker, and consequently the tagged sums at L = N are N times the
tagged sums at L = 1. -/
theorem layer_scaling_spec (h V N n_h n_kv d_ff b s : ℕ)
    (hN : 0 < N) (hb : 0 < b) (hs : 0 < s) :
    (((mkModel h V N n_h n_kv d_ff).compile b s).ops.filter (fun p => isLayerTagged p.1)
        = ((mkModel h V N n_h n_kv d_ff).layerOps b s).map (scaleEntry N)) ∧
      (∀ p ∈ (mkModel h V N n_h n_kv d_ff).layerOps b s,
        (scaleEntry N p).1 = "all_layers_" ++ p.1 ∧
          (scaleEntry N p).2.fwd_flops = p.2.fwd_flops * (N : ℚ) ∧
          (scaleEntry N p).2.bwd_flops = p.2.bwd_flops * (N : ℚ)) ∧
      ((mkModel h V N n_h n_kv d_ff).compile b s).perLayerFwdSum
        = (N : ℚ) * ((mkModel h V 1 n_h n_kv d_ff).compile b s).perLayerFwdSum ∧
      ((mkModel h V N n_h n_kv d_ff).compile b s).perLayerBwdSum
        = (N : ℚ) * ((mkModel h V 1 n_h n_kv d_ff).compile b s).perLayerBwdSum := by
  have hfN := compile_filter_tagged (mkModel h V N n_h n_kv d_ff) b s
  have hf1 := compile_filter_tagged (mkModel h V 1 n_h n_kv d_ff) b s
  have hsame : (mkModel h V 1 n_h n_kv d_ff).layerOps b s
      = (mkModel h V N n_h n_kv d_ff).layerOps b s := rfl
  refine ⟨hfN, fun p _ => ⟨rfl, rfl, rfl⟩, ?_, ?_⟩
  · simp only [Model.perLayerFwdSum]
    rw [hfN, hf1, hsame]
    simp only [mkModel, List.map_map, Function.comp_def, scaleEntry,
      Nat.cast_one, mul_one]
    rw [List.sum_map_mul_right]
    ring
  · simp only [Model.perLayerBwdSum]
    rw [hfN, hf1, hsame]
    simp only [mkModel, List.map_map, Function.comp_def, scaleEntry,
      Nat.cast_one, mul_one]
    rw [List.sum_map_mul_right]
    ring

/-- Witness for layer_scaling_spec at configuration (4, 10, N = 2, 2, 1, 8)
with b = s = 1. -/
theorem layer_scaling_spec_witness :
    0 < 2 ∧ 0 < 1 ∧
      ((((mkModel 4 10 2 2 1 8).compile 1 1).ops.filter (fun p => isLayerTagged p.1)
          = ((mkModel 4 10 2 2 1 8).layerOps 1 1).map (scaleEntry 2)) ∧
        (∀ p ∈ (mkModel 4 10 2 2 1 8).layerOps 1 1,
          (scaleEntry 2 p).1 = "all_layers_" ++ p.1 ∧
            (scaleEntry 2 p).2.fwd_flops = p.2.fwd_flops * ((2 : ℕ) : ℚ) ∧
            (scaleEntry 2 p).2.bwd_flops = p.2.bwd_flops * ((2 : ℕ) : ℚ)) ∧
        ((mkModel 4 10 2 2 1 8).compile 1 1).perLayerFwdSum
          = ((2 : ℕ) : ℚ) * ((mkModel 4 10 1 2 1 8).compile 1 1).perLayerFwdSum ∧
        ((mkModel 4 10 2 2 1 8).compile 1 1).perLayerBwdSum
          = ((2 : ℕ) : ℚ) * ((mkModel 4 10 1 2 1 8).compile 1 1).perLayerBwdSum) :=
  ⟨by decide, by decide,
    layer_scaling_spec 4 10 2 2 1 8 1 1 (by decide) (by decide) (by decide)⟩

/-- Claim C7, counterexample to the stated count: at a concrete configuration
the layer-tagged subsequence built by compile has 21 entries, not 19. -/
theorem layer_count_counterexample :
    ((((mkModel 4 10 2 2 1 8).compile 1 1).ops.filter
        (fun p => isLayerTagged p.1)).length = 21) ∧ 21 ≠ 19 := by
  exact ⟨by decide, by decide⟩

/-- Claim C7, amended: for every configuration and positive b, s the
layer-tagged subsequence built by compile consists of exactly 21 entries in
the fixed source order. -/
theorem layer_sequence_amended (h V L n_h n_kv d_ff b s : ℕ)
    (hb : 0 < b) (hs : 0 < s) :
    ((((mkModel h V L n_h n_kv d_ff).compile b s).ops.filter
          (fun p => isLayerTagged p.1)).map Prod.fst
        = [ "all_layers_pre_attn_rmsnorm", "all_layers_q_proj", "all_layers_k_proj",
            "all_layers_v_proj", "all_layers_q_rotary", "all_layers_k_rotary",
            "all_layers_k_repeat_kv", "all_layers_v_repeat_kv", "all_layers_attn_scores",
            "all_layers_attn_scale", "all_layers_softmax", "all_layers_attn_v",
            "all_layers_out_proj", "all_layers_post_attn_residual",
            "all_layers_pre_ffn_rmsnorm", "all_layers_ffn_up1", "all_layers_ffn_up2",
            "all_layers_ffn_elemtwise", "all_layers_ffn_act", "all_layers_ffn_down",
            "all_layers_post_ffn_residual" ]) ∧
      (((mkModel h V L n_h n_kv d_ff).compile b s).ops.filter
          (fun p => isLayerTagged p.1)).length = 21 := by
  rw [compile_filter_tagged]
  exact ⟨rfl, rfl⟩

/-- Witness for layer_sequence_amended at configuration (4, 10, 2, 2, 1, 8)
with b = s = 1. -/
theorem layer_sequence_amended_witness :
    0 < 1 ∧
      (((((mkModel 4 10 2 2 1 8).compile 1 1).ops.filter
            (fun p => isLayerTagged p.1)).map Prod.fst
          = [ "all_layers_pre_attn_rmsnorm", "all_layers_q_proj", "all_layers_k_proj",
              "all_layers_v_proj", "all_layers_q_rotary", "all_layers_k_rotary",
              "all_layers_k_repeat_kv", "all_layers_v_repeat_kv", "all_layers_attn_scores",
              "all_layers_attn_scale", "all_layers_softmax", "all_layers_attn_v",
              "all_layers_out_proj", "all_layers_post_attn_residual",
              "all_layers_pre_ffn_rmsnorm", "all_layers_ffn_up1", "all_layers_ffn_up2",
              "all_layers_ffn_elemtwise", "all_layers_ffn_act", "all_layers_ffn_down",
              "all_layers_post_ffn_residual" ]) ∧
        (((mkModel 4 10 2 2 1 8).compile 1 1).ops.filter
            (fun p => isLayerTagged p.1)).length = 21) :=
  ⟨by decide, layer_sequence_amended 4 10 2 2 1 8 1 1 (by decide) (by decide)⟩

/-- When n_h divides h, the truncated K/V projection width used by model.py
coincides with the untruncated width used by llama_train.py. -/
lemma compile_ops_eq_llama (h V L n_h n_kv d_ff b s : ℕ)
    (hnh : 0 < n_h) (hdvd : n_h ∣ h) :
    ((mkModel h V L n_h n_kv d_ff).compile b s).ops
      = create_llama_ops b s h V L n_h n_kv d_ff := by
  obtain ⟨t, rfl⟩ := hdvd
  have hnhQ : ((n_h : ℚ)) ≠ 0 := Nat.cast_ne_zero.mpr hnh.ne'
  have hd : (((n_h * t : ℕ) : ℚ)) / ((n_h : ℚ)) = ((t : ℚ)) := by
    push_cast
    field_simp
  have hcast : ((n_kv : ℚ)) * ((t : ℚ)) = (((n_kv * t : ℕ) : ℚ)) := by
    push_cast
    ring
  have hk : ((pyInt (((n_kv : ℚ)) * ((t : ℚ))) : ℤ) : ℚ)
      = ((n_kv : ℚ)) * ((t : ℚ)) := by
    rw [hcast, pyInt_natCast]
    push_cast
    ring
  simp only [Model.compile, Model.clear_ops, Model.layerOps, mkModel,
    create_llama_ops, List.nil_append, hk, hd]

/-- Claim C10: with all inputs positive and n_h dividing h, compiling the
model and aggregating yields the same four totals as building the operation
list with create_llama_ops and performing the driver sums times rounds. -/
theorem model_refines_llama (h V L n_h n_kv d_ff b s rounds : ℕ)
    (hh : 0 < h) (hV : 0 < V) (hL : 0 < L) (hnh : 0 < n_h) (hnkv : 0 < n_kv)
    (hdff : 0 < d_ff) (hb : 0 < b) (hs : 0 < s) (hr : 0 < rounds)
    (hdvd : n_h ∣ h) :
    ((mkModel h V L n_h n_kv d_ff).compile b s).get_training_flops rounds
      = llamaPhaseTotals (create_llama_ops b s h V L n_h n_kv d_ff) rounds := by
  rw [get_training_flops_eq_phase,
    compile_ops_eq_llama h V L n_h n_kv d_ff b s hnh hdvd]

/-- Witness for model_refines_llama at configuration (4, 10, 2, 2, 1, 8) with
b = s = rounds = 1, where 2 divides 4. -/
theorem model_refines_llama_witness :
    (0 < 4 ∧ 0 < 10 ∧ 0 < 2 ∧ 0 < 1 ∧ 0 < 8 ∧ (2 : ℕ) ∣ 4) ∧
      ((mkModel 4 10 2 2 1 8).compile 1 1).get_training_flops 1
        = llamaPhaseTotals (create_llama_ops 1 1 4 10 2 2 1 8) 1 :=
  ⟨⟨by decide, by decide, by decide, by decide, by decide, by decide⟩,
    model_refines_llama 4 10 2 2 1 8 1 1 1 (by decide) (by decide) (by decide)
      (by decide) (by decide) (by decide) (by decide) (by decide) (by decide)
      (by decide)⟩

end LLMProfiler
